import Mathlib

/-!
Shallow embedding of the fairseq plugin-registry core:
`src/fairseq/registry.py` and `src/fairseq/tasks/__init__.py`.

Python's mutable module-level dictionaries become explicit state records
threaded through the functions; raising an exception becomes returning
`Except.error`.  Where a function mutates state before raising, the
embedding returns the mutated state alongside the error, matching the
fact that Python exceptions do not roll back prior assignments.
-/

/-- A Python class object, abstractly: its `__name__`, the names of all
classes it is a subclass of (including itself, so that `issubclass` is
membership in this list), and the names of its attributes (for `hasattr`). -/
structure PyClass where
  name : String
  superclasses : List String
  attrs : List String
deriving DecidableEq

/-- A Python dataclass type used as a configuration schema: its name, its
superclass names (``FairseqDataclass`` membership models
`issubclass(dataclass, FairseqDataclass)`), and its declared fields with
their default values (field values abstracted to `Nat`). -/
structure PyDataclass where
  name : String
  superclasses : List String
  fields : List (String × Nat)
deriving DecidableEq

/-- `issubclass(cls, base)` modelled as membership of the base name in the
recorded superclass list. -/
def issubclass (supers : List String) (base : String) : Bool :=
  supers.contains base

deriving instance DecidableEq for Except

/-- The Python exceptions raised by the two modules.  A `KeyError` carries
only the missing key; `ValueError` and `AssertionError` carry their message. -/
inductive PyErr where
  | keyError (key : String)
  | valueError (msg : String)
  | assertionError (msg : String)
deriving DecidableEq

/-- The textual content of an exception, as Python would display it. -/
def errMsg : PyErr → String
  | .keyError k => k
  | .valueError m => m
  | .assertionError m => m

/-- Whether an exception is assertion-class. -/
def isAssertionError : PyErr → Bool
  | .assertionError _ => true
  | _ => false

/-- Whether a raised result is assertion-class. -/
def raisedAssertion {α : Type} : Except PyErr α → Bool
  | .error e => isAssertionError e
  | .ok _ => false

/-- The `*extra_args, **extra_kwargs` of `build_x`, passed through unchanged;
abstracted to an opaque list of values. -/
abbrev ExtraArgs := List Nat

/-- The configuration value given to `build_x`
(`Union[DictConfig, str, Namespace]`): a structured `DictConfig` with its
`_name` field (`none` models Python `None`) and override fields, a bare
string, or a legacy `Namespace` attribute bag mapping attribute names to
string values. -/
inductive CfgVal where
  | dict (nm : Option String) (fields : List (String × Nat))
  | str (s : String)
  | ns (attrs : List (String × String))
deriving DecidableEq

/-- Modelled from the spec: `merge_with_parent` lives in
`fairseq/dataclass/utils.py`, which is not under `src/`.  Per the spec,
schema defaults are filled in for absent fields and caller-supplied fields
take precedence. -/
def merge_with_parent (dcFields overrides : List (String × Nat)) :
    List (String × Nat) :=
  dcFields.map fun kv => (kv.1, (overrides.lookup kv.1).getD kv.2)

/-- The configuration object that `build_x` finally hands to the builder,
tagged by which rewriting (if any) the source applied to the input. -/
inductive BuiltCfg where
  | dictRaw (nm : Option String) (fields : List (String × Nat))
  | mergedWithParent (dc : PyDataclass) (nm : Option String)
      (fields : List (String × Nat))
  | strRaw (s : String)
  | dcDefault (dc : PyDataclass)
  | nsRaw (attrs : List (String × String))
  | fromNamespace (dc : PyDataclass) (attrs : List (String × String))
deriving DecidableEq

/-- The effective configuration fields carried by a built configuration,
where the embedding knows them: a default dataclass instance carries the
schema's declared defaults, a merged instance carries defaults overridden
by the caller's fields.  `from_namespace` conversion lives outside `src/`,
so its field content is left undetermined (`none`), as is that of values
passed through without a schema. -/
def cfgFields : BuiltCfg → Option (List (String × Nat))
  | .dictRaw _ _ => none
  | .mergedWithParent dc _ fs => some (merge_with_parent dc.fields fs)
  | .strRaw _ => none
  | .dcDefault dc => some dc.fields
  | .nsRaw _ => none
  | .fromNamespace _ _ => none

/-- The value returned by `build_x`: either a call of the class's
`build_<registryName>` factory attribute, or a call of the class itself,
each with the resolved configuration and the extra arguments. -/
inductive BuildResult where
  | builderCall (cls : PyClass) (cfg : BuiltCfg) (extra : ExtraArgs)
  | ctorCall (cls : PyClass) (cfg : BuiltCfg) (extra : ExtraArgs)
deriving DecidableEq

/-- The configuration a build result was constructed with. -/
def builtCfgOf : BuildResult → BuiltCfg
  | .builderCall _ c _ => c
  | .ctorCall _ c _ => c

/-- The class a build result constructed. -/
def builtClsOf : BuildResult → PyClass
  | .builderCall c _ _ => c
  | .ctorCall c _ _ => c

/-- The arguments `setup_registry` was closed over: the normalized registry
name, the optional base class (by name), the default choice, and the
`required` flag. -/
structure RegistryParams where
  registryName : String
  baseClass : Option String
  defaultChoice : Option String
  required : Bool
deriving DecidableEq

/-- The mutable state captured by one registry's closures: `REGISTRY`,
`REGISTRY_CLASS_NAMES` and `DATACLASS_REGISTRY`, as association lists /
a list acting as a set. -/
structure RegState where
  registry : List (String × PyClass)
  classNames : List String
  dataclassRegistry : List (String × PyDataclass)
deriving DecidableEq

/-- The fresh state allocated by `setup_registry`. -/
def emptyRegState : RegState := ⟨[], [], []⟩

/-- The choice / configuration resolution at the top of `build_x`
(registry.py lines 40-53): shape dispatch on the input.  For a
`DictConfig`, `choice = cfg._name` and the schema merge happens only when
`choice` is truthy (non-`None` and non-empty) and has a registered schema.
For a bare string, the schema (if any) replaces the configuration by its
default instance.  For a `Namespace`, the choice is
`getattr(cfg, registry_name, None)` and a registered schema triggers
`from_namespace` conversion (`None in DATACLASS_REGISTRY` is false). -/
def resolve_choice_cfg (p : RegistryParams) (st : RegState) (cfg : CfgVal) :
    Option String × BuiltCfg :=
  match cfg with
  | .dict nm fields =>
    match nm with
    | some c =>
      if c ≠ "" then
        match st.dataclassRegistry.lookup c with
        | some dc => (some c, .mergedWithParent dc nm fields)
        | none => (some c, .dictRaw nm fields)
      else (some c, .dictRaw nm fields)
    | none => (none, .dictRaw nm fields)
  | .str s =>
    match st.dataclassRegistry.lookup s with
    | some dc => (some s, .dcDefault dc)
    | none => (some s, .strRaw s)
  | .ns attrs =>
    match attrs.lookup p.registryName with
    | some c =>
      match st.dataclassRegistry.lookup c with
      | some dc => (some c, .fromNamespace dc attrs)
      | none => (some c, .nsRaw attrs)
    | none => (none, .nsRaw attrs)

/-- `build_x` (registry.py lines 39-66).  After resolution: a `None` choice
raises `ValueError("{registry_name} is required!")` when `required`,
otherwise returns `None`; an unregistered choice raises a bare `KeyError`
from `REGISTRY[choice]`; otherwise the class's `build_<registry_name>`
attribute is preferred over the class itself as the construction entry
point. -/
def build_x (p : RegistryParams) (st : RegState) (cfg : CfgVal)
    (extra : ExtraArgs) : Except PyErr (Option BuildResult) :=
  match resolve_choice_cfg p st cfg with
  | (none, _) =>
    if p.required then
      .error (.valueError (p.registryName ++ " is required!"))
    else
      .ok none
  | (some c, bcfg) =>
    match st.registry.lookup c with
    | none => .error (.keyError c)
    | some cls =>
      if cls.attrs.contains ("build_" ++ p.registryName) then
        .ok (some (.builderCall cls bcfg extra))
      else
        .ok (some (.ctorCall cls bcfg extra))

/-- `register_x_cls` (registry.py lines 73-106).  Checks, in source order:
duplicate choice name, duplicate class name, base-class conformance,
dataclass conformance; then records the dataclass (if any) in
`DATACLASS_REGISTRY` and the class in `REGISTRY`.  Note that the source
reads `REGISTRY_CLASS_NAMES` (line 78) but never adds to it, so the
embedded `classNames` component is likewise never extended here.  The
`ConfigStore.instance().store` call publishes to external hydra state and
is outside the embedded state. -/
def register_x_cls (p : RegistryParams) (name : String)
    (dataclass : Option PyDataclass) (cls : PyClass) (st : RegState) :
    Except PyErr PyClass × RegState :=
  if (st.registry.lookup name).isSome then
    (.error (.valueError ("Cannot register duplicate " ++ p.registryName ++
      " (" ++ name ++ ")")), st)
  else if st.classNames.contains cls.name then
    (.error (.valueError ("Cannot register " ++ p.registryName ++
      " with duplicate class name (" ++ cls.name ++ ")")), st)
  else if (match p.baseClass with
           | some b => !(issubclass cls.superclasses b)
           | none => false : Bool) then
    (.error (.valueError (cls.name ++ " must extend " ++
      (p.baseClass.getD ""))), st)
  else if (match dataclass with
           | some dc => !(issubclass dc.superclasses "FairseqDataclass")
           | none => false : Bool) then
    (.error (.valueError ("Dataclass " ++
      ((dataclass.map PyDataclass.name).getD "") ++
      " must extend FairseqDataclass")), st)
  else
    let st1 :=
      match dataclass with
      | some dc =>
        { st with dataclassRegistry := (name, dc) :: st.dataclassRegistry }
      | none => st
    (.ok cls, { st1 with registry := (name, cls) :: st1.registry })

/-- One entry of the global `REGISTRIES` catalog (registry.py lines 33-37):
the registry and dataclass-registry state plus the default choice. -/
structure CatalogEntry where
  state : RegState
  defaultChoice : Option String
deriving DecidableEq

/-- The global `REGISTRIES` mapping. -/
structure Catalog where
  entries : List (String × CatalogEntry)
deriving DecidableEq

/-- `registry_name[2:].replace("-", "_")` (registry.py line 24); the
replacement of the one-character pattern is a character map. -/
def normalizeRegistryName (raw : String) : String :=
  ⟨(raw.data.drop 2).map fun c => if c = '-' then '_' else c⟩

/-- `registry_name.startswith("--")` (registry.py line 22). -/
def startswithDashes (s : String) : Bool :=
  List.isPrefixOf ['-', '-'] s.data

/-- `setup_registry` (registry.py lines 17-110) acting on the global
catalog.  The leading-marker assertion fires first (a bare Python
`assert`, so the message is empty); if the normalized name is already
catalogued the function returns `None` and changes nothing; otherwise it
allocates fresh empty state, records it in the catalog together with the
default, and returns the handle that the returned `build_x` /
`register_x` closures are parameterized by. -/
def setup_registry (rawName : String) (baseClass : Option String)
    (dflt : Option String) (required : Bool) (cat : Catalog) :
    Except PyErr (Option RegistryParams × Catalog) :=
  if ¬ startswithDashes rawName then
    .error (.assertionError "")
  else
    let nm := normalizeRegistryName rawName
    if (cat.entries.lookup nm).isSome then
      .ok (none, cat)
    else
      .ok (some ⟨nm, baseClass, dflt, required⟩,
        ⟨(nm, ⟨emptyRegState, dflt⟩) :: cat.entries⟩)

/-- The module-level state of `fairseq/tasks/__init__.py`: `TASK_REGISTRY`,
`TASK_CLASS_NAMES` and `TASK_DATACLASS_REGISTRY`. -/
structure TaskState where
  taskRegistry : List (String × PyClass)
  taskClassNames : List String
  taskDataclassRegistry : List (String × PyDataclass)
deriving DecidableEq

/-- The initial (empty) task-module state. -/
def emptyTaskState : TaskState := ⟨[], [], []⟩

/-- The configuration handed to `setup_task`, by the two attributes the
source reads: `taskAttr` is `getattr(cfg, "task", None)` when that value
is a `str` (`none` covers both an absent attribute and a non-string value,
which fail the `isinstance(task_name, str)` test alike), and `nameAttr` is
`getattr(cfg, "_name", None)`. -/
structure TaskCfg where
  taskAttr : Option String
  nameAttr : Option String
deriving DecidableEq

/-- The configuration `setup_task` forwards to the task's `setup_task`
classmethod, tagged by the rewriting applied: untouched, converted by the
dataclass's `from_namespace`, or merged with the dataclass defaults. -/
inductive TaskBuiltCfg where
  | raw (c : TaskCfg)
  | fromNamespace (dc : PyDataclass) (c : TaskCfg)
  | merged (dc : PyDataclass) (c : TaskCfg)
deriving DecidableEq

/-- The successful outcome of `setup_task`: delegation to the resolved
class's `setup_task` entry point with the resolved configuration. -/
inductive SetupResult where
  | setupCall (cls : PyClass) (cfg : TaskBuiltCfg)
deriving DecidableEq

/-- Display of an optional string inside the assertion message; abstracts
Python's repr but keeps the value itself visible. -/
def reprOptStr : Option String → String
  | none => "None"
  | some s => s

/-- Display of the configuration inside the assertion message; abstracts
the Python object repr while exposing the two attributes the resolution
read. -/
def reprTaskCfg (c : TaskCfg) : String :=
  "cfg(task=" ++ reprOptStr c.taskAttr ++ ", _name=" ++
    reprOptStr c.nameAttr ++ ")"

/-- Display of a dict key view inside the assertion message; abstracts
Python's `dict_keys` repr while listing every key. -/
def keysRepr : List String → String
  | [] => ""
  | k :: ks => k ++ ", " ++ keysRepr ks

/-- The f-string of the assertion in `setup_task`
(tasks/__init__.py line 44): the configuration value, the keys of
`TASK_REGISTRY`, and the keys of `TASK_DATACLASS_REGISTRY`. -/
def taskAssertMsg (cfg : TaskCfg) (st : TaskState) : String :=
  "Could not infer task type from " ++ reprTaskCfg cfg ++
    ". Available argparse tasks: " ++
    keysRepr (st.taskRegistry.map Prod.fst) ++
    ". Available hydra tasks: " ++
    keysRepr (st.taskDataclassRegistry.map Prod.fst)

/-- `setup_task` (tasks/__init__.py lines 24-46).  If `cfg.task` is a
string, the legacy path indexes `TASK_REGISTRY[task_name]` directly (a
bare `KeyError` when absent) and converts the configuration through the
registered dataclass when one exists.  Otherwise the structured path reads
`cfg._name`; only a truthy name present in `TASK_DATACLASS_REGISTRY`
resolves (merging the dataclass defaults and indexing `TASK_REGISTRY`);
in every other case `task` stays `None` and the assertion fires with the
message built from the original configuration and both key sets. -/
def setup_task (cfg : TaskCfg) (st : TaskState) : Except PyErr SetupResult :=
  match cfg.taskAttr with
  | some tn =>
    match st.taskRegistry.lookup tn with
    | none => .error (.keyError tn)
    | some cls =>
      match st.taskDataclassRegistry.lookup tn with
      | some dc => .ok (.setupCall cls (.fromNamespace dc cfg))
      | none => .ok (.setupCall cls (.raw cfg))
  | none =>
    match cfg.nameAttr with
    | some n =>
      if n ≠ "" then
        match st.taskDataclassRegistry.lookup n with
        | some dc =>
          match st.taskRegistry.lookup n with
          | some cls => .ok (.setupCall cls (.merged dc cfg))
          | none => .error (.keyError n)
        | none => .error (.assertionError (taskAssertMsg cfg st))
      else .error (.assertionError (taskAssertMsg cfg st))
    | none => .error (.assertionError (taskAssertMsg cfg st))

/-- `register_task_cls` (tasks/__init__.py lines 72-105).  Checks, in
source order: duplicate task name, `FairseqTask` conformance, duplicate
class name; then inserts into `TASK_REGISTRY` and `TASK_CLASS_NAMES`
(lines 86-87) BEFORE the dataclass-conformance check (line 89), so a
dataclass failure leaves the class registered; finally records the
dataclass in `TASK_DATACLASS_REGISTRY`.  The returned state reflects
exactly the assignments executed before any raise. -/
def register_task_cls (name : String) (dataclass : Option PyDataclass)
    (cls : PyClass) (st : TaskState) : Except PyErr PyClass × TaskState :=
  if (st.taskRegistry.lookup name).isSome then
    (.error (.valueError ("Cannot register duplicate task (" ++ name ++ ")")),
      st)
  else if !(issubclass cls.superclasses "FairseqTask") then
    (.error (.valueError ("Task (" ++ name ++ ": " ++ cls.name ++
      ") must extend FairseqTask")), st)
  else if st.taskClassNames.contains cls.name then
    (.error (.valueError ("Cannot register task with duplicate class name (" ++
      cls.name ++ ")")), st)
  else
    let st1 : TaskState :=
      { st with taskRegistry := (name, cls) :: st.taskRegistry,
                taskClassNames := cls.name :: st.taskClassNames }
    match dataclass with
    | some dc =>
      if !(issubclass dc.superclasses "FairseqDataclass") then
        (.error (.valueError ("Dataclass " ++ dc.name ++
          " must extend FairseqDataclass")), st1)
      else
        (.ok cls,
          { st1 with
            taskDataclassRegistry := (name, dc) :: st1.taskDataclassRegistry })
    | none => (.ok cls, st1)

/-- `get_task` (tasks/__init__.py lines 110-111): a bare dictionary
lookup, raising `KeyError` when the name is unknown. -/
def get_task (name : String) (st : TaskState) : Except PyErr PyClass :=
  match st.taskRegistry.lookup name with
  | some cls => .ok cls
  | none => .error (.keyError name)

/-- Claim C4: for every registry and every choice name with a registered
configuration schema (and hence a registered implementation), calling
`build` with the bare string constructs the implementation with `cfg`
equal to a freshly instantiated default instance of that schema, so the
returned instance is configured with exactly the schema's declared
defaults. -/
theorem build_x_string_uses_schema_defaults (p : RegistryParams)
    (st : RegState) (c : String) (dc : PyDataclass) (cls : PyClass)
    (extra : ExtraArgs)
    (h1 : st.dataclassRegistry.lookup c = some dc)
    (h2 : st.registry.lookup c = some cls) :
    ∃ r, build_x p st (.str c) extra = .ok (some r) ∧
      builtCfgOf r = .dcDefault dc ∧
      cfgFields (builtCfgOf r) = some dc.fields := by
  by_cases hb : ("build_" ++ p.registryName) ∈ cls.attrs
  · exact ⟨.builderCall cls (.dcDefault dc) extra,
      by simp [build_x, resolve_choice_cfg, h1, h2, hb], rfl, rfl⟩
  · exact ⟨.ctorCall cls (.dcDefault dc) extra,
      by simp [build_x, resolve_choice_cfg, h1, h2, hb], rfl, rfl⟩

/-- Claim C4, witness: a concrete registry where choice `adam` has schema
defaults `lr = 1`; building from the bare string yields the default
instance. -/
theorem build_x_string_uses_schema_defaults_witness :
    ∃ r,
      build_x ⟨"optimizer", none, none, false⟩
        ⟨[("adam", ⟨"Adam", ["Adam"], []⟩)], [],
         [("adam", ⟨"AdamConfig", ["FairseqDataclass"], [("lr", 1)]⟩)]⟩
        (.str "adam") [] = .ok (some r) ∧
      builtCfgOf r = .dcDefault ⟨"AdamConfig", ["FairseqDataclass"], [("lr", 1)]⟩ ∧
      cfgFields (builtCfgOf r) = some [("lr", 1)] :=
  build_x_string_uses_schema_defaults ⟨"optimizer", none, none, false⟩
    ⟨[("adam", ⟨"Adam", ["Adam"], []⟩)], [],
     [("adam", ⟨"AdamConfig", ["FairseqDataclass"], [("lr", 1)]⟩)]⟩
    "adam" ⟨"AdamConfig", ["FairseqDataclass"], [("lr", 1)]⟩
    ⟨"Adam", ["Adam"], []⟩ [] (by decide) (by decide)

/-- Claim C5, counterexample: an empty-string choice is falsy but not
`None`, so on a registry created with `required=False` the build does not
return `None`; it falls through to the registry lookup and raises
`KeyError("")` — refuting the claim that an empty choice returns nothing. -/
theorem build_x_empty_choice_raises :
    build_x ⟨"optimizer", none, none, false⟩ emptyRegState
      (.dict (some "") []) [] = .error (.keyError "") ∧
    build_x ⟨"optimizer", none, none, false⟩ emptyRegState
      (.dict (some "") []) [] ≠ .ok none := by decide

/-- Claim C5, amended: for every configuration value from which the
resolved choice is absent (`None` — an empty string is not treated as
absent), `build` returns nothing when the registry was created with
`required=False`, and raises the required-choice `ValueError` when it was
created with `required=True`. -/
theorem build_x_absent_choice (p : RegistryParams) (st : RegState)
    (cfg : CfgVal) (extra : ExtraArgs)
    (h : (resolve_choice_cfg p st cfg).1 = none) :
    build_x p st cfg extra =
      if p.required then
        .error (.valueError (p.registryName ++ " is required!"))
      else .ok none := by
  rcases hres : resolve_choice_cfg p st cfg with ⟨ch, bcfg⟩
  rw [hres] at h
  simp only at h
  subst h
  simp [build_x, hres]

/-- Claim C5, witness: a `DictConfig` whose `_name` is `None` on a
non-required registry builds to nothing, and the same configuration on a
required registry raises the required-choice error. -/
theorem build_x_absent_choice_witness :
    build_x ⟨"optimizer", none, none, false⟩ emptyRegState
      (.dict none []) [] = .ok none ∧
    build_x ⟨"optimizer", none, none, true⟩ emptyRegState
      (.dict none []) [] =
      .error (.valueError ("optimizer" ++ " is required!")) := by
  constructor
  · rw [build_x_absent_choice ⟨"optimizer", none, none, false⟩ emptyRegState
      (.dict none []) [] (by decide)]
    decide
  · rw [build_x_absent_choice ⟨"optimizer", none, none, true⟩ emptyRegState
      (.dict none []) [] (by decide)]
    decide

/-- Claim C7: when the normalized registry name is already present in the
global catalog, a second call to `setup_registry` returns nothing and
leaves the catalog — and with it the previously created registry's
implementations, schemas and entry — exactly unchanged. -/
theorem setup_registry_idempotent (raw : String) (base dflt : Option String)
    (req : Bool) (cat : Catalog)
    (h1 : startswithDashes raw = true)
    (h2 : (cat.entries.lookup (normalizeRegistryName raw)).isSome = true) :
    setup_registry raw base dflt req cat = .ok (none, cat) := by
  simp [setup_registry, h1, h2]

/-- Claim C7, witness: re-invoking `setup_registry` on a catalog already
holding `optimizer` returns `none` and the same catalog. -/
theorem setup_registry_idempotent_witness :
    setup_registry "--optimizer" none none false
      ⟨[("optimizer", ⟨emptyRegState, none⟩)]⟩ =
      .ok (none, ⟨[("optimizer", ⟨emptyRegState, none⟩)]⟩) :=
  setup_registry_idempotent "--optimizer" none none false
    ⟨[("optimizer", ⟨emptyRegState, none⟩)]⟩ (by decide) (by decide)

/-- Claim C8: for every registered implementation class and every resolved
choice and configuration, `build` calls the class's
`build_<registryName>` attribute with the configuration and extra
arguments when the class has that attribute, and otherwise calls the
class itself with the same arguments. -/
theorem build_x_builder_dispatch (p : RegistryParams) (st : RegState)
    (cfg : CfgVal) (extra : ExtraArgs) (c : String) (bcfg : BuiltCfg)
    (cls : PyClass)
    (h1 : resolve_choice_cfg p st cfg = (some c, bcfg))
    (h2 : st.registry.lookup c = some cls) :
    build_x p st cfg extra =
      .ok (some (if cls.attrs.contains ("build_" ++ p.registryName) then
        .builderCall cls bcfg extra
      else
        .ctorCall cls bcfg extra)) := by
  simp only [build_x, h1, h2]
  split <;> rfl

/-- Claim C8, witness: a class exposing `build_optimizer` is constructed
through that attribute, and one without it through its constructor. -/
theorem build_x_builder_dispatch_witness :
    build_x ⟨"optimizer", none, none, false⟩
      ⟨[("adam", ⟨"Adam", ["Adam"], ["build_optimizer"]⟩)], [], []⟩
      (.str "adam") [] =
      .ok (some (.builderCall ⟨"Adam", ["Adam"], ["build_optimizer"]⟩
        (.strRaw "adam") [])) ∧
    build_x ⟨"optimizer", none, none, false⟩
      ⟨[("sgd", ⟨"SGD", ["SGD"], []⟩)], [], []⟩
      (.str "sgd") [] =
      .ok (some (.ctorCall ⟨"SGD", ["SGD"], []⟩ (.strRaw "sgd") [])) := by
  constructor
  · rw [build_x_builder_dispatch ⟨"optimizer", none, none, false⟩
      ⟨[("adam", ⟨"Adam", ["Adam"], ["build_optimizer"]⟩)], [], []⟩
      (.str "adam") [] "adam" (.strRaw "adam")
      ⟨"Adam", ["Adam"], ["build_optimizer"]⟩ (by decide) (by decide)]
    decide
  · rw [build_x_builder_dispatch ⟨"optimizer", none, none, false⟩
      ⟨[("sgd", ⟨"SGD", ["SGD"], []⟩)], [], []⟩
      (.str "sgd") [] "sgd" (.strRaw "sgd")
      ⟨"SGD", ["SGD"], []⟩ (by decide) (by decide)]
    decide

/-- Claim C6: for every registry declared with a base-interface constraint
(the generic factory with a base class, and the task registry with its
fixed `FairseqTask` base) and every class not satisfying it, applying the
registration decorator fails with the conformance `ValueError` and leaves
the implementations and schemas mappings exactly as they were (the
duplicate checks that precede the conformance check are assumed to pass,
as they do for any fresh registration). -/
theorem register_conformance_error (p : RegistryParams) (name : String)
    (dataclass : Option PyDataclass) (cls : PyClass) (st : RegState)
    (b : String) (tname : String) (tdc : Option PyDataclass) (tcls : PyClass)
    (tst : TaskState)
    (hb : p.baseClass = some b)
    (hc : issubclass cls.superclasses b = false)
    (h1 : st.registry.lookup name = none)
    (h2 : st.classNames.contains cls.name = false)
    (ht1 : tst.taskRegistry.lookup tname = none)
    (ht2 : issubclass tcls.superclasses "FairseqTask" = false) :
    register_x_cls p name dataclass cls st =
      (.error (.valueError (cls.name ++ " must extend " ++ b)), st) ∧
    register_task_cls tname tdc tcls tst =
      (.error (.valueError ("Task (" ++ tname ++ ": " ++ tcls.name ++
        ") must extend FairseqTask")), tst) := by
  have h2m : cls.name ∉ st.classNames := by simpa using h2
  have hcm : b ∉ cls.superclasses := by simpa [issubclass] using hc
  have ht2m : "FairseqTask" ∉ tcls.superclasses := by simpa [issubclass] using ht2
  constructor
  · simp [register_x_cls, issubclass, h1, h2m, hb, hcm]
  · simp [register_task_cls, issubclass, ht1, ht2m]

/-- Claim C6, witness: a class outside the declared base interface is
rejected by the generic registry and by the task registry, with both
states returned unchanged. -/
theorem register_conformance_error_witness :
    register_x_cls ⟨"optimizer", some "FairseqOptimizer", none, false⟩
      "sgd" none ⟨"SGD", ["SGD"], []⟩ emptyRegState =
      (.error (.valueError ("SGD" ++ " must extend " ++ "FairseqOptimizer")),
        emptyRegState) ∧
    register_task_cls "translation" none ⟨"Translation", ["Translation"], []⟩
      emptyTaskState =
      (.error (.valueError ("Task (" ++ "translation" ++ ": " ++
        "Translation" ++ ") must extend FairseqTask")), emptyTaskState) :=
  register_conformance_error ⟨"optimizer", some "FairseqOptimizer", none, false⟩
    "sgd" none ⟨"SGD", ["SGD"], []⟩ emptyRegState "FairseqOptimizer"
    "translation" none ⟨"Translation", ["Translation"], []⟩ emptyTaskState
    rfl (by decide) (by decide) (by decide) (by decide) (by decide)

/-- Claim C9: when the supplied dataclass does not extend
`FairseqDataclass`, `register_task` raises the conformance error only
after the class was inserted into `TASK_REGISTRY` and its name into
`TASK_CLASS_NAMES`: in the state returned alongside the error the task is
still registered and queryable through `get_task`, while
`TASK_DATACLASS_REGISTRY` is untouched — registration is not atomic with
respect to this failure. -/
theorem register_task_not_atomic (name : String) (dc : PyDataclass)
    (cls : PyClass) (st : TaskState)
    (h1 : st.taskRegistry.lookup name = none)
    (h2 : issubclass cls.superclasses "FairseqTask" = true)
    (h3 : st.taskClassNames.contains cls.name = false)
    (h4 : issubclass dc.superclasses "FairseqDataclass" = false) :
    (register_task_cls name (some dc) cls st).1 =
      .error (.valueError ("Dataclass " ++ dc.name ++
        " must extend FairseqDataclass")) ∧
    (register_task_cls name (some dc) cls st).2.taskRegistry.lookup name =
      some cls ∧
    (register_task_cls name (some dc) cls st).2.taskClassNames.contains
      cls.name = true ∧
    get_task name (register_task_cls name (some dc) cls st).2 = .ok cls ∧
    (register_task_cls name (some dc) cls st).2.taskDataclassRegistry =
      st.taskDataclassRegistry := by
  have h2m : "FairseqTask" ∈ cls.superclasses := by simpa [issubclass] using h2
  have h3m : cls.name ∉ st.taskClassNames := by simpa using h3
  have h4m : "FairseqDataclass" ∉ dc.superclasses := by
    simpa [issubclass] using h4
  simp [register_task_cls, get_task, issubclass, h1, h2m, h3m, h4m,
    List.lookup]

/-- Claim C9, witness: registering `span` with a non-conforming dataclass
errors, yet `get_task "span"` succeeds on the resulting state. -/
theorem register_task_not_atomic_witness :
    (register_task_cls "span" (some ⟨"SpanCfg", ["SpanCfg"], []⟩)
      ⟨"SpanTask", ["FairseqTask"], []⟩ emptyTaskState).1 =
      .error (.valueError ("Dataclass " ++ "SpanCfg" ++
        " must extend FairseqDataclass")) ∧
    (register_task_cls "span" (some ⟨"SpanCfg", ["SpanCfg"], []⟩)
      ⟨"SpanTask", ["FairseqTask"], []⟩ emptyTaskState).2.taskRegistry.lookup
      "span" = some ⟨"SpanTask", ["FairseqTask"], []⟩ ∧
    (register_task_cls "span" (some ⟨"SpanCfg", ["SpanCfg"], []⟩)
      ⟨"SpanTask", ["FairseqTask"], []⟩
      emptyTaskState).2.taskClassNames.contains "SpanTask" = true ∧
    get_task "span" (register_task_cls "span" (some ⟨"SpanCfg", ["SpanCfg"], []⟩)
      ⟨"SpanTask", ["FairseqTask"], []⟩ emptyTaskState).2 =
      .ok ⟨"SpanTask", ["FairseqTask"], []⟩ ∧
    (register_task_cls "span" (some ⟨"SpanCfg", ["SpanCfg"], []⟩)
      ⟨"SpanTask", ["FairseqTask"], []⟩
      emptyTaskState).2.taskDataclassRegistry =
      emptyTaskState.taskDataclassRegistry :=
  register_task_not_atomic "span" ⟨"SpanCfg", ["SpanCfg"], []⟩
    ⟨"SpanTask", ["FairseqTask"], []⟩ emptyTaskState
    (by decide) (by decide) (by decide) (by decide)

/-- Claim C10: a task registered without a dataclass is present in
`TASK_REGISTRY` but not in `TASK_DATACLASS_REGISTRY`, so `setup_task` on a
structured configuration (no legacy string `task` attribute) whose
`_name` equals the task's name always fails with the assertion error: the
structured path only resolves names present in `TASK_DATACLASS_REGISTRY`. -/
theorem setup_task_structured_needs_dataclass (name : String) (cls : PyClass)
    (cfg : TaskCfg) (st : TaskState)
    (h1 : st.taskRegistry.lookup name = some cls)
    (h2 : st.taskDataclassRegistry.lookup name = none)
    (h3 : cfg.taskAttr = none)
    (h4 : cfg.nameAttr = some name) :
    setup_task cfg st = .error (.assertionError (taskAssertMsg cfg st)) := by
  by_cases hn : name = ""
  · subst hn
    simp [setup_task, h3, h4]
  · simp [setup_task, h3, h4, h2, hn]

/-- Claim C10, witness: `legacy_only` is registered (no dataclass); a
structured configuration selecting it by `_name` hits the assertion. -/
theorem setup_task_structured_needs_dataclass_witness :
    setup_task ⟨none, some "legacy_only"⟩
      ⟨[("legacy_only", ⟨"LegacyTask", ["FairseqTask"], []⟩)], ["LegacyTask"],
        []⟩ =
      .error (.assertionError (taskAssertMsg ⟨none, some "legacy_only"⟩
        ⟨[("legacy_only", ⟨"LegacyTask", ["FairseqTask"], []⟩)], ["LegacyTask"],
          []⟩)) :=
  setup_task_structured_needs_dataclass "legacy_only"
    ⟨"LegacyTask", ["FairseqTask"], []⟩ ⟨none, some "legacy_only"⟩
    ⟨[("legacy_only", ⟨"LegacyTask", ["FairseqTask"], []⟩)], ["LegacyTask"], []⟩
    (by decide) (by decide) rfl rfl

/-- Claim C1: the generic registry reads `REGISTRY_CLASS_NAMES` but never
adds to it, so registering a second class with the same `__name__` under a
different choice name is accepted, and the resulting registry maps two
choices to classes with the same class identifier — contradicting both the
duplicate-class-name check's purpose (the source's own comment says the
set exists to prevent duplicate class names) and the claimed invariant.
Evaluation of the code at the failing input. -/
theorem register_x_duplicate_class_name_accepted :
    (register_x_cls ⟨"optimizer", none, none, false⟩ "a" none
      ⟨"DupImpl", [], []⟩ emptyRegState).1 = .ok ⟨"DupImpl", [], []⟩ ∧
    (register_x_cls ⟨"optimizer", none, none, false⟩ "b" none
      ⟨"DupImpl", [], ["marker"]⟩
      (register_x_cls ⟨"optimizer", none, none, false⟩ "a" none
        ⟨"DupImpl", [], []⟩ emptyRegState).2).1 =
      .ok ⟨"DupImpl", [], ["marker"]⟩ ∧
    ((register_x_cls ⟨"optimizer", none, none, false⟩ "b" none
      ⟨"DupImpl", [], ["marker"]⟩
      (register_x_cls ⟨"optimizer", none, none, false⟩ "a" none
        ⟨"DupImpl", [], []⟩ emptyRegState).2).2.registry.lookup "a").map
      PyClass.name =
    ((register_x_cls ⟨"optimizer", none, none, false⟩ "b" none
      ⟨"DupImpl", [], ["marker"]⟩
      (register_x_cls ⟨"optimizer", none, none, false⟩ "a" none
        ⟨"DupImpl", [], []⟩ emptyRegState).2).2.registry.lookup "b").map
      PyClass.name := by decide

/-- The character data of an appended string is the appended character
data. -/
theorem strDataAppend (x y : String) : (x ++ y).data = x.data ++ y.data := rfl

/-- A substring of the left operand is a substring of an appended string. -/
theorem substrAppendLeft {k : List Char} (x y : String)
    (h : k <:+: x.data) : k <:+: (x ++ y).data := by
  rcases h with ⟨s, t, hst⟩
  exact ⟨s, t ++ y.data, by rw [strDataAppend, ← hst]; simp⟩

/-- A substring of the right operand is a substring of an appended
string. -/
theorem substrAppendRight {k : List Char} (x y : String)
    (h : k <:+: y.data) : k <:+: (x ++ y).data := by
  rcases h with ⟨s, t, hst⟩
  exact ⟨x.data ++ s, t, by rw [strDataAppend, ← hst]; simp⟩

/-- Every listed key occurs verbatim inside its `keysRepr` rendering. -/
theorem keysReprMemSubstr {k : String} {l : List String} (h : k ∈ l) :
    k.data <:+: (keysRepr l).data := by
  induction l with
  | nil => cases h
  | cons a t ih =>
    simp only [keysRepr]
    rcases List.mem_cons.mp h with h | h
    · subst h
      exact substrAppendLeft _ _ (substrAppendLeft _ _ ⟨[], [], by simp⟩)
    · exact substrAppendRight _ _ (ih h)

/-- Every `TASK_REGISTRY` key occurs verbatim in the assertion message of
`setup_task`. -/
theorem taskAssertMsgMentionsArgparse {k : String} (cfg : TaskCfg)
    (st : TaskState) (h : k ∈ st.taskRegistry.map Prod.fst) :
    k.data <:+: (taskAssertMsg cfg st).data := by
  unfold taskAssertMsg
  exact substrAppendLeft _ _ (substrAppendLeft _ _
    (substrAppendRight _ _ (keysReprMemSubstr h)))

/-- Every `TASK_DATACLASS_REGISTRY` key occurs verbatim in the assertion
message of `setup_task`. -/
theorem taskAssertMsgMentionsHydra {k : String} (cfg : TaskCfg)
    (st : TaskState) (h : k ∈ st.taskDataclassRegistry.map Prod.fst) :
    k.data <:+: (taskAssertMsg cfg st).data := by
  unfold taskAssertMsg
  exact substrAppendRight _ _ (keysReprMemSubstr h)

/-- Claim C2, counterexample: a configuration whose legacy `task`
attribute is an unknown string is resolvable by neither path, yet
`setup_task` raises a bare `KeyError` (from `TASK_REGISTRY[task_name]`),
not an assertion-class error reporting the choice sets. -/
theorem setup_task_unknown_legacy_keyerror :
    setup_task ⟨some "translation", none⟩ emptyTaskState =
      .error (.keyError "translation") ∧
    raisedAssertion (setup_task ⟨some "translation", none⟩ emptyTaskState) =
      false := by decide

/-- Claim C2, amended: when the legacy `task` attribute is not a string
and the structured path cannot resolve the choice field, `setup_task`
fails with the assertion error whose message reports the requested
configuration value together with the legacy known-choice set and the
structured known-choice set (every key of both registries occurs in the
message); a legacy string naming an unknown task instead raises a bare
`KeyError`. -/
theorem setup_task_unresolved_assertion (cfg : TaskCfg) (st : TaskState)
    (h1 : cfg.taskAttr = none)
    (h2 : cfg.nameAttr = none ∨ cfg.nameAttr = some "" ∨
      ∃ n, cfg.nameAttr = some n ∧ st.taskDataclassRegistry.lookup n = none) :
    setup_task cfg st = .error (.assertionError (taskAssertMsg cfg st)) ∧
    (∀ k ∈ st.taskRegistry.map Prod.fst,
      k.data <:+: (taskAssertMsg cfg st).data) ∧
    (∀ k ∈ st.taskDataclassRegistry.map Prod.fst,
      k.data <:+: (taskAssertMsg cfg st).data) := by
  refine ⟨?_, fun k hk => taskAssertMsgMentionsArgparse cfg st hk,
    fun k hk => taskAssertMsgMentionsHydra cfg st hk⟩
  rcases h2 with h2 | h2 | ⟨n, hn, hdc⟩
  · simp [setup_task, h1, h2]
  · simp [setup_task, h1, h2]
  · by_cases hne : n = ""
    · subst hne
      simp [setup_task, h1, hn]
    · simp [setup_task, h1, hn, hdc, hne]

/-- Claim C2, witness: `_name` selects an unregistered choice on a state
with one legacy task; the assertion error carries the message built from
the configuration and both key sets. -/
theorem setup_task_unresolved_assertion_witness :
    setup_task ⟨none, some "span"⟩
      ⟨[("mt", ⟨"MT", ["FairseqTask"], []⟩)], ["MT"], []⟩ =
      .error (.assertionError (taskAssertMsg ⟨none, some "span"⟩
        ⟨[("mt", ⟨"MT", ["FairseqTask"], []⟩)], ["MT"], []⟩)) :=
  (setup_task_unresolved_assertion ⟨none, some "span"⟩
    ⟨[("mt", ⟨"MT", ["FairseqTask"], []⟩)], ["MT"], []⟩ rfl
    (Or.inr (Or.inr ⟨"span", rfl, rfl⟩))).1

/-- Claim C3, counterexample: building an unknown choice raises a
`KeyError` whose message is the bare choice; the registry's name
(`optimizer`) does not occur in the message, refuting the claim that the
error names the registry. -/
theorem build_x_unknown_choice_message_lacks_registry :
    build_x ⟨"optimizer", none, none, false⟩ emptyRegState (.str "sgd") [] =
      .error (.keyError "sgd") ∧
    ¬ ("optimizer".data <:+: (errMsg (.keyError "sgd")).data) := by decide

/-- Claim C3, amended: calling `build` with a choice string not present in
the implementations mapping raises a `KeyError` whose message is the
unknown choice itself (the registry's name is not part of it); the task
registry's legacy string path likewise raises a bare `KeyError` carrying
only the task name — the legacy and structured choice sets appear only in
the structured path's assertion error. -/
theorem build_x_unknown_choice_keyerror (p : RegistryParams) (st : RegState)
    (c : String) (extra : ExtraArgs) (tcfg : TaskCfg) (tst : TaskState)
    (tn : String)
    (hc : st.registry.lookup c = none)
    (htc : tcfg.taskAttr = some tn)
    (ht : tst.taskRegistry.lookup tn = none) :
    build_x p st (.str c) extra = .error (.keyError c) ∧
    errMsg (.keyError c) = c ∧
    setup_task tcfg tst = .error (.keyError tn) ∧
    errMsg (.keyError tn) = tn := by
  refine ⟨?_, rfl, ?_, rfl⟩
  · cases hdc : st.dataclassRegistry.lookup c <;>
      simp [build_x, resolve_choice_cfg, hdc, hc]
  · simp [setup_task, htc, ht]

/-- Claim C3, witness: unknown choices raise `KeyError` carrying exactly
the choice, on a generic registry and on the task registry. -/
theorem build_x_unknown_choice_keyerror_witness :
    build_x ⟨"optimizer", none, none, false⟩ emptyRegState (.str "nadam") [] =
      .error (.keyError "nadam") ∧
    errMsg (.keyError "nadam") = "nadam" ∧
    setup_task ⟨some "dummy", none⟩ emptyTaskState =
      .error (.keyError "dummy") ∧
    errMsg (.keyError "dummy") = "dummy" :=
  build_x_unknown_choice_keyerror ⟨"optimizer", none, none, false⟩
    emptyRegState "nadam" [] ⟨some "dummy", none⟩ emptyTaskState "dummy"
    (by decide) rfl (by decide)
